import Mathlib

/-!
Shallow embedding of the ESP_MenuSystem library (src/ESP32_MenuSystem.h,
src/ESP32_MenuSystem.cpp) and verification of its specification claims.

Modelling conventions:
* C++ `float` is modelled as `ℚ` (exact rational arithmetic); the properties
  verified here are order/branching properties of the code, not rounding facts.
* C++ `int`/`long` are modelled as `ℤ`, `unsigned long` timestamps as `ℕ`
  (timestamps in every statement are monotone, so unsigned wraparound never
  fires and ordinary subtraction agrees with the machine subtraction).
* Pointers to `ValueAdjuster` objects are modelled as indices into an explicit
  heap (`adjusters : List ValueAdjuster`); `nullptr` is `Option.none`.
* `MenuCallback*` trigger objects are opaque: an item stores `Option ℕ` (an id),
  and `select` reports the id of the callback it executed instead of running it.
* Display drawing is out of scope; of `displayMenu` only the dispatch decision
  (which screen is rendered) is embedded, as `displayKind`.
-/

/-! ## Constants from the header -/

def MAX_MENU_ITEMS : ℕ := 16
def MAX_MENU_DEPTH : ℕ := 32

def ADJUSTER_TYPE_FLOAT : ℕ := 0
def ADJUSTER_TYPE_INT : ℕ := 1
def ADJUSTER_TYPE_BOOL : ℕ := 2

inductive InputMode where
  | buttons
  | encoder
deriving DecidableEq, Repr

/-! ## Value adjusters

`FloatValueAdjuster`, `IntValueAdjuster` and `BoolValueAdjuster` from the
header, as one sum type (the C++ virtual dispatch on `getType()` becomes a
match on the constructor).  The `bool` constructor carries the committed value
(`*valuePtr`) and the temporary selection (`tempValue`). -/

inductive ValueAdjuster where
  | float (value increment minValue maxValue : ℚ) (wrapAround : Bool)
  | int (value increment minValue maxValue : ℤ) (wrapAround : Bool)
  | bool (value temp : Bool)
deriving DecidableEq, Repr

def ValueAdjuster.getType : ValueAdjuster → ℕ
  | .float _ _ _ _ _ => ADJUSTER_TYPE_FLOAT
  | .int _ _ _ _ _ => ADJUSTER_TYPE_INT
  | .bool _ _ => ADJUSTER_TYPE_BOOL

def ValueAdjuster.getValue : ValueAdjuster → ℚ
  | .float v _ _ _ _ => v
  | .int v _ _ _ _ => (v : ℚ)
  | .bool v _ => if v then 1 else 0

def ValueAdjuster.getIncrement : ValueAdjuster → ℚ
  | .float _ inc _ _ _ => inc
  | .int _ inc _ _ _ => (inc : ℚ)
  | .bool _ _ => 1

/-- `static_cast<int>` on a float value: truncation toward zero. -/
def truncToInt (q : ℚ) : ℤ := q.num.tdiv q.den

/-- `setValue` of each adjuster class.  Float: wrap jumps to the opposite
bound, clamp saturates (two sequential `if`s, as in the source).  Integer:
the argument is truncated to `int` first.  Boolean: the numeric argument is
ignored and the committed value is toggled. -/
def ValueAdjuster.setValue : ValueAdjuster → ℚ → ValueAdjuster
  | .float _ inc minValue maxValue wrap, newValue =>
    if wrap then
      if newValue > maxValue then .float minValue inc minValue maxValue wrap
      else if newValue < minValue then .float maxValue inc minValue maxValue wrap
      else .float newValue inc minValue maxValue wrap
    else
      let v1 := if newValue < minValue then minValue else newValue
      let v2 := if v1 > maxValue then maxValue else v1
      .float v2 inc minValue maxValue wrap
  | .int _ inc minValue maxValue wrap, newValue =>
    let intValue := truncToInt newValue
    if wrap then
      if intValue > maxValue then .int minValue inc minValue maxValue wrap
      else if intValue < minValue then .int maxValue inc minValue maxValue wrap
      else .int intValue inc minValue maxValue wrap
    else
      let v1 := if intValue < minValue then minValue else intValue
      let v2 := if v1 > maxValue then maxValue else v1
      .int v2 inc minValue maxValue wrap
  | .bool v t, _ => .bool (!v) t

/-- `BoolValueAdjuster::isTrue` (only the bool subclass has it). -/
def ValueAdjuster.isTrue : ValueAdjuster → Bool
  | .bool v _ => v
  | _ => false

/-- `BoolValueAdjuster::setTempValue`: updates only the temporary selection. -/
def ValueAdjuster.setTempValue : ValueAdjuster → Bool → ValueAdjuster
  | .bool v _, b => .bool v b
  | a, _ => a

/-- `BoolValueAdjuster::getTempValue`. -/
def ValueAdjuster.getTempValue : ValueAdjuster → Bool
  | .bool _ t => t
  | _ => false

/-- `BoolValueAdjuster::applyTempValue`: copies the temporary selection into
the committed value. -/
def ValueAdjuster.applyTempValue : ValueAdjuster → ValueAdjuster
  | .bool _ t => .bool t t
  | a => a

/-! ## Menu items and menus -/

structure MenuItem where
  name : String
  nextMenuId : ℤ
  callback : Option ℕ
  valueAdjuster : Option ℕ
deriving DecidableEq, Repr

structure Menu where
  title : String
  items : List MenuItem
  id : ℤ
deriving DecidableEq, Repr

def Menu.itemCount (m : Menu) : ℤ := m.items.length

/-- `Menu::addItem`: silently rejected past the fixed capacity. -/
def Menu.addItem (m : Menu) (name : String) (nextMenuId : ℤ)
    (callback : Option ℕ) (adjuster : Option ℕ) : Menu :=
  if m.items.length < MAX_MENU_ITEMS then
    { m with items := m.items ++ [⟨name, nextMenuId, callback, adjuster⟩] }
  else m

/-! ## The menu system state

All mutable fields of the `ESP32_MenuSystem` class that take part in input
interpretation and navigation.  Display-layout fields (pixel geometry, fonts)
are omitted: no claim concerns them. -/

structure ESP32_MenuSystem where
  menus : List Menu
  currentMenuIndex : ℤ
  cursorPosition : ℤ
  adjusters : List ValueAdjuster
  inputMode : InputMode
  isValueAdjustMode : Bool
  currentValueAdjuster : Option ℕ
  buttonUpState : Bool
  buttonDownState : Bool
  buttonOkState : Bool
  lastButtonUpState : Bool
  lastButtonDownState : Bool
  lastButtonOkState : Bool
  lastDebounceTime : ℕ
  debounceDelay : ℕ
  lastEncoderValue : ℤ
  encoderAccumulator : ℤ
  encoderSensitivity : ℤ
  encoderButtonState : Bool
  lastEncoderButtonState : Bool
  errorCode : ℤ
  errorMessage : String
deriving DecidableEq, Repr

namespace ESP32_MenuSystem

def menuCount (s : ESP32_MenuSystem) : ℤ := s.menus.length

/-- `getCurrentMenu`: the menu at `currentMenuIndex`, or null when the index
is out of range. -/
def getCurrentMenu (s : ESP32_MenuSystem) : Option Menu :=
  if 0 ≤ s.currentMenuIndex ∧ s.currentMenuIndex < s.menuCount then
    s.menus[s.currentMenuIndex.toNat]?
  else none

/-- Dereference a `ValueAdjuster*`. -/
def readAdj (s : ESP32_MenuSystem) (r : ℕ) : Option ValueAdjuster :=
  s.adjusters[r]?

/-- Write through a `ValueAdjuster*` (the pointed-to object is updated in
place; every item or field holding the same reference sees the new value). -/
def writeAdj (s : ESP32_MenuSystem) (r : ℕ) (a : ValueAdjuster) : ESP32_MenuSystem :=
  { s with adjusters := s.adjusters.set r a }

/-- `findMenuById`: linear scan in creation order, first match wins, -1 when
absent. -/
def findMenuAux : List Menu → ℤ → ℤ → ℤ
  | [], _, _ => -1
  | m :: ms, id, i => if m.id = id then i else findMenuAux ms id (i + 1)

def findMenuById (s : ESP32_MenuSystem) (id : ℤ) : ℤ :=
  findMenuAux s.menus id 0

/-- `moveUp`.  In value-adjust mode a boolean target gets `setTempValue(true)`
and any other target gets `setValue(value + increment)`; otherwise the cursor
moves up with wraparound to `itemCount - 1`. -/
def moveUp (s : ESP32_MenuSystem) : ESP32_MenuSystem :=
  if s.isValueAdjustMode ∧ s.currentValueAdjuster.isSome then
    match s.currentValueAdjuster with
    | some r =>
      match s.readAdj r with
      | some adj =>
        if adj.getType = ADJUSTER_TYPE_BOOL then
          s.writeAdj r (adj.setTempValue true)
        else
          s.writeAdj r (adj.setValue (adj.getValue + adj.getIncrement))
      | none => s
    | none => s
  else
    if s.cursorPosition > 0 then
      { s with cursorPosition := s.cursorPosition - 1 }
    else
      match s.getCurrentMenu with
      | some m => { s with cursorPosition := m.itemCount - 1 }
      | none => s

/-- `moveDown`: mirror image of `moveUp` (boolean target gets
`setTempValue(false)`; cursor wraps to 0 at the bottom). -/
def moveDown (s : ESP32_MenuSystem) : ESP32_MenuSystem :=
  if s.isValueAdjustMode ∧ s.currentValueAdjuster.isSome then
    match s.currentValueAdjuster with
    | some r =>
      match s.readAdj r with
      | some adj =>
        if adj.getType = ADJUSTER_TYPE_BOOL then
          s.writeAdj r (adj.setTempValue false)
        else
          s.writeAdj r (adj.setValue (adj.getValue - adj.getIncrement))
      | none => s
    | none => s
  else
    match s.getCurrentMenu with
    | some m =>
      if s.cursorPosition < m.itemCount - 1 then
        { s with cursorPosition := s.cursorPosition + 1 }
      else
        { s with cursorPosition := 0 }
    | none => s

/-- `enterValueAdjustMode`.  Seeds the temporary selection from the committed
value for boolean adjusters, and in encoder mode resynchronizes
`lastEncoderValue` to the current raw reading (`encReading`). -/
def enterValueAdjustMode (s : ESP32_MenuSystem) (r : ℕ) (encReading : ℤ) :
    ESP32_MenuSystem :=
  let s1 := { s with isValueAdjustMode := true, currentValueAdjuster := some r }
  let s2 :=
    match s1.readAdj r with
    | some adj =>
      if adj.getType = ADJUSTER_TYPE_BOOL then
        s1.writeAdj r (adj.setTempValue adj.isTrue)
      else s1
    | none => s1
  if s2.inputMode = InputMode.encoder then { s2 with lastEncoderValue := encReading }
  else s2

/-- `exitValueAdjustMode`. -/
def exitValueAdjustMode (s : ESP32_MenuSystem) : ESP32_MenuSystem :=
  { s with isValueAdjustMode := false, currentValueAdjuster := none }

/-- `setError`. -/
def setError (s : ESP32_MenuSystem) (code : ℤ) (message : String) : ESP32_MenuSystem :=
  { s with errorCode := code, errorMessage := message }

/-- `clearError`. -/
def clearError (s : ESP32_MenuSystem) : ESP32_MenuSystem :=
  { s with errorCode := 0, errorMessage := "" }

/-- `select`.  Returns the new state together with the id of the executed
callback, if any (the callback body itself is external).  An item bound to a
value adjuster enters edit mode and nothing else happens.  Accessing
`items[cursorPosition]` with a negative cursor is undefined behavior in the
source and is modelled as a no-op; no theorem below relies on that branch. -/
def select (s : ESP32_MenuSystem) (encReading : ℤ) :
    ESP32_MenuSystem × Option ℕ :=
  match s.getCurrentMenu with
  | none => (s, none)
  | some m =>
    if s.cursorPosition < m.itemCount then
      match (if 0 ≤ s.cursorPosition then m.items[s.cursorPosition.toNat]? else none) with
      | none => (s, none)
      | some item =>
        match item.valueAdjuster with
        | some r => (s.enterValueAdjustMode r encReading, none)
        | none =>
          let executed := item.callback
          if item.nextMenuId ≥ 0 then
            let nextMenuIndex := s.findMenuById item.nextMenuId
            if nextMenuIndex ≥ 0 then
              ({ s with currentMenuIndex := nextMenuIndex, cursorPosition := 0 }, executed)
            else (s, executed)
          else (s, executed)
    else (s, none)

/-- `goBack`: only acts when the current menu is not already index 0. -/
def goBack (s : ESP32_MenuSystem) : ESP32_MenuSystem :=
  if s.currentMenuIndex > 0 then
    { s with currentMenuIndex := 0, cursorPosition := 0 }
  else s

/-- `setCurrentMenu`. -/
def setCurrentMenu (s : ESP32_MenuSystem) (menuId : ℤ) : ESP32_MenuSystem :=
  let menuIndex := s.findMenuById menuId
  if menuIndex ≥ 0 then
    { s with currentMenuIndex := menuIndex, cursorPosition := 0 }
  else s

/-- The edit-mode branch of the UP button in `checkButtons`:
`setValue(getValue() + getIncrement())` on the current adjuster.  Note that
this branch does not special-case boolean adjusters, unlike `moveUp`. -/
def increaseValue (s : ESP32_MenuSystem) : ESP32_MenuSystem :=
  match s.currentValueAdjuster with
  | some r =>
    match s.readAdj r with
    | some adj => s.writeAdj r (adj.setValue (adj.getValue + adj.getIncrement))
    | none => s
  | none => s

/-- The edit-mode branch of the DOWN button in `checkButtons`:
`setValue(getValue() - getIncrement())`. -/
def decreaseValue (s : ESP32_MenuSystem) : ESP32_MenuSystem :=
  match s.currentValueAdjuster with
  | some r =>
    match s.readAdj r with
    | some adj => s.writeAdj r (adj.setValue (adj.getValue - adj.getIncrement))
    | none => s
  | none => s

/-- The OK-press action of `checkButtons` / `handleButtonPress`: clear a
latched error, else commit+leave edit mode, else select. -/
def confirmAction (s : ESP32_MenuSystem) (encReading : ℤ) : ESP32_MenuSystem :=
  if s.errorCode > 0 then s.clearError
  else if s.isValueAdjustMode ∧ s.currentValueAdjuster.isSome then
    let s1 :=
      match s.currentValueAdjuster with
      | some r =>
        match s.readAdj r with
        | some adj =>
          if adj.getType = ADJUSTER_TYPE_BOOL then s.writeAdj r adj.applyTempValue
          else s
        | none => s
      | none => s
    s1.exitValueAdjustMode
  else (s.select encReading).1

end ESP32_MenuSystem

/-- One button's debounce logic inside `checkButtons` (the same code is
repeated for UP, DOWN and OK, all sharing the single `lastDebounceTime`
member): a raw change resets the shared timestamp; once the delay has matured
the raw level is copied into the stable level, and `fired` records that the
button's action ran (the action runs exactly when the stable level just became
asserted). -/
structure DebStep where
  stable : Bool
  timer : ℕ
  fired : Bool
deriving DecidableEq, Repr

def debounceStep (raw lastRaw stable : Bool) (timer now delay : ℕ) : DebStep :=
  let t := if raw ≠ lastRaw then now else timer
  if now - t > delay then
    if raw ≠ stable then { stable := raw, timer := t, fired := raw }
    else { stable := stable, timer := t, fired := false }
  else { stable := stable, timer := t, fired := false }

/-- Which of the three button actions fired during one `checkButtons` call. -/
structure ButtonEvents where
  upFired : Bool
  downFired : Bool
  okFired : Bool
deriving DecidableEq, Repr

namespace ESP32_MenuSystem

/-- The UP-button block of `checkButtons`: debounce against the shared
timestamp, then on a rising stable edge run the UP action (edit mode:
`setValue(value + increment)`; otherwise `moveUp`).  Returns the updated
state and whether the action fired. -/
def upStage (s : ESP32_MenuSystem) (up : Bool) (now : ℕ) :
    ESP32_MenuSystem × Bool :=
  let dU := debounceStep up s.lastButtonUpState s.buttonUpState
      s.lastDebounceTime now s.debounceDelay
  let s1 := { s with buttonUpState := dU.stable, lastDebounceTime := dU.timer }
  (if dU.fired then
      (if s1.isValueAdjustMode ∧ s1.currentValueAdjuster.isSome then s1.increaseValue
       else s1.moveUp)
    else s1, dU.fired)

/-- The DOWN-button block of `checkButtons`. -/
def downStage (s : ESP32_MenuSystem) (down : Bool) (now : ℕ) :
    ESP32_MenuSystem × Bool :=
  let dD := debounceStep down s.lastButtonDownState s.buttonDownState
      s.lastDebounceTime now s.debounceDelay
  let s2 := { s with buttonDownState := dD.stable, lastDebounceTime := dD.timer }
  (if dD.fired then
      (if s2.isValueAdjustMode ∧ s2.currentValueAdjuster.isSome then s2.decreaseValue
       else s2.moveDown)
    else s2, dD.fired)

/-- The OK-button block of `checkButtons`. -/
def okStage (s : ESP32_MenuSystem) (ok : Bool) (now : ℕ) (encReading : ℤ) :
    ESP32_MenuSystem × Bool :=
  let dO := debounceStep ok s.lastButtonOkState s.buttonOkState
      s.lastDebounceTime now s.debounceDelay
  let s3 := { s with buttonOkState := dO.stable, lastDebounceTime := dO.timer }
  (if dO.fired then s3.confirmAction encReading else s3, dO.fired)

/-- `checkButtons`.  Inputs are the three active-level samples for this cycle
(`digitalRead` already mapped through each button's trigger polarity), the
current `millis()` value, and the raw encoder reading (threaded through for
`enterValueAdjustMode`).  The three buttons are processed in order UP, DOWN,
OK — the three repeated blocks of the source — each reading and writing the
single shared `lastDebounceTime`; at the end the three raw samples become
the `lastButtonXState` values for the next cycle. -/
def checkButtons (s : ESP32_MenuSystem) (up down ok : Bool) (now : ℕ)
    (encReading : ℤ) : ESP32_MenuSystem × ButtonEvents :=
  if s.inputMode ≠ InputMode.buttons then (s, ⟨false, false, false⟩) else
  let pU := s.upStage up now
  let pD := pU.1.downStage down now
  let pO := pD.1.okStage ok now encReading
  ({ pO.1 with lastButtonUpState := up, lastButtonDownState := down,
               lastButtonOkState := ok },
   ⟨pU.2, pD.2, pO.2⟩)

/-- The dispatch that runs when the encoder accumulator crosses the
sensitivity threshold in `handleEncoderMovement`. -/
def encoderStepAction (s : ESP32_MenuSystem) (movementDir : ℤ) : ESP32_MenuSystem :=
  if s.isValueAdjustMode ∧ s.currentValueAdjuster.isSome then
    match s.currentValueAdjuster with
    | some r =>
      match s.readAdj r with
      | some adj =>
        if adj.getType = ADJUSTER_TYPE_BOOL then
          s.writeAdj r (adj.setTempValue (decide (movementDir > 0)))
        else
          s.writeAdj r (adj.setValue (adj.getValue + adj.getIncrement * (movementDir : ℚ)))
      | none => s
    | none => s
  else
    if movementDir > 0 then s.moveDown else s.moveUp

/-- `handleEncoderMovement`, one cycle with raw absolute reading `reading`.
Returns the emitted step event, if any (`some 1` = clockwise/down step,
`some (-1)` = counter-clockwise/up step); the event is exactly the branch in
which the source fires one navigation/adjust action.  The accumulator gains
`sign(delta)` per changed reading and is reduced with the C truncated `%`
after an emission. -/
def handleEncoderMovement (s : ESP32_MenuSystem) (reading : ℤ) :
    ESP32_MenuSystem × Option ℤ :=
  if s.inputMode ≠ InputMode.encoder then (s, none)
  else if reading ≠ s.lastEncoderValue then
    let encoderDir : ℤ := if reading > s.lastEncoderValue then 1 else -1
    let s0 := { s with encoderAccumulator := s.encoderAccumulator + encoderDir }
    if s0.encoderSensitivity ≤ |s0.encoderAccumulator| then
      let movementDir : ℤ := if s0.encoderAccumulator > 0 then 1 else -1
      let s1 := s0.encoderStepAction movementDir
      ({ s1 with
          encoderAccumulator := s1.encoderAccumulator.tmod s1.encoderSensitivity,
          lastEncoderValue := reading }, some movementDir)
    else ({ s0 with lastEncoderValue := reading }, none)
  else (s, none)

/-- Run `handleEncoderMovement` over a sequence of raw readings, collecting
the emitted step events in order. -/
def runEncoder (s : ESP32_MenuSystem) : List ℤ → ESP32_MenuSystem × List ℤ
  | [] => (s, [])
  | r :: rs =>
    let p := s.handleEncoderMovement r
    let q := p.1.runEncoder rs
    (q.1, p.2.toList ++ q.2)

/-- Apply a sequence of `moveUp`/`moveDown` calls (`true` = `moveDown`). -/
def applyMoves (s : ESP32_MenuSystem) : List Bool → ESP32_MenuSystem
  | [] => s
  | mv :: mvs => (if mv then s.moveDown else s.moveUp).applyMoves mvs

end ESP32_MenuSystem

/-- Which screen `displayMenu` renders: a latched error preempts everything,
then the edit screens (boolean vs. numeric), then the normal menu screen. -/
inductive DisplayKind where
  | errorScreen
  | boolAdjustScreen
  | valueAdjustScreen
  | menuScreen
deriving DecidableEq, Repr

def ESP32_MenuSystem.displayKind (s : ESP32_MenuSystem) : DisplayKind :=
  if s.errorCode > 0 then .errorScreen
  else if s.isValueAdjustMode ∧ s.currentValueAdjuster.isSome then
    match s.currentValueAdjuster with
    | some r =>
      match s.readAdj r with
      | some adj =>
        if adj.getType = ADJUSTER_TYPE_BOOL then .boolAdjustScreen
        else .valueAdjustScreen
      | none => .valueAdjustScreen
    | none => .valueAdjustScreen
  else .menuScreen

/-! ## Concrete states used by counterexamples and witnesses -/

/-- The state established by the button-mode constructor (before any menus
are added).  Encoder fields are uninitialized in that constructor; they are
set to zeros here and no button-mode statement depends on them. -/
def initButtons : ESP32_MenuSystem :=
  { menus := [], currentMenuIndex := 0, cursorPosition := 0, adjusters := [],
    inputMode := InputMode.buttons, isValueAdjustMode := false,
    currentValueAdjuster := none,
    buttonUpState := false, buttonDownState := false, buttonOkState := false,
    lastButtonUpState := false, lastButtonDownState := false,
    lastButtonOkState := false,
    lastDebounceTime := 0, debounceDelay := 50,
    lastEncoderValue := 0, encoderAccumulator := 0, encoderSensitivity := 1,
    encoderButtonState := false, lastEncoderButtonState := false,
    errorCode := 0, errorMessage := "" }

/-- The state established by the encoder-mode constructor. -/
def initEncoder (sensitivity : ℤ) : ESP32_MenuSystem :=
  { initButtons with inputMode := InputMode.encoder,
                     encoderSensitivity := sensitivity }

/-! ## Frame ("shape") lemmas

Each state-machine operation only writes a known subset of the fields; these
lemmas state the result as a record update of the input state, so that every
untouched field can be read off. -/

namespace ESP32_MenuSystem

theorem moveUp_shape (s : ESP32_MenuSystem) :
    s.moveUp = { s with cursorPosition := (s.moveUp).cursorPosition,
                        adjusters := (s.moveUp).adjusters } := by
  unfold moveUp writeAdj
  repeat' split
  all_goals rfl

theorem moveDown_shape (s : ESP32_MenuSystem) :
    s.moveDown = { s with cursorPosition := (s.moveDown).cursorPosition,
                          adjusters := (s.moveDown).adjusters } := by
  unfold moveDown writeAdj
  repeat' split
  all_goals rfl

theorem increaseValue_shape (s : ESP32_MenuSystem) :
    s.increaseValue = { s with adjusters := (s.increaseValue).adjusters } := by
  unfold increaseValue writeAdj
  repeat' split
  all_goals rfl

theorem decreaseValue_shape (s : ESP32_MenuSystem) :
    s.decreaseValue = { s with adjusters := (s.decreaseValue).adjusters } := by
  unfold decreaseValue writeAdj
  repeat' split
  all_goals rfl

theorem encoderStepAction_shape (s : ESP32_MenuSystem) (d : ℤ) :
    s.encoderStepAction d =
      { s with cursorPosition := (s.encoderStepAction d).cursorPosition,
               adjusters := (s.encoderStepAction d).adjusters } := by
  unfold encoderStepAction writeAdj
  repeat' split
  all_goals first
    | rfl
    | exact moveDown_shape s
    | exact moveUp_shape s

theorem enterValueAdjustMode_shape (s : ESP32_MenuSystem) (r : ℕ) (enc : ℤ) :
    s.enterValueAdjustMode r enc =
      { s with isValueAdjustMode := (s.enterValueAdjustMode r enc).isValueAdjustMode,
               currentValueAdjuster := (s.enterValueAdjustMode r enc).currentValueAdjuster,
               adjusters := (s.enterValueAdjustMode r enc).adjusters,
               lastEncoderValue := (s.enterValueAdjustMode r enc).lastEncoderValue } := by
  unfold enterValueAdjustMode writeAdj readAdj
  dsimp only
  repeat' split
  all_goals rfl

theorem select_fst_shape (s : ESP32_MenuSystem) (enc : ℤ) :
    (s.select enc).1 =
      { s with currentMenuIndex := (s.select enc).1.currentMenuIndex,
               cursorPosition := (s.select enc).1.cursorPosition,
               isValueAdjustMode := (s.select enc).1.isValueAdjustMode,
               currentValueAdjuster := (s.select enc).1.currentValueAdjuster,
               adjusters := (s.select enc).1.adjusters,
               lastEncoderValue := (s.select enc).1.lastEncoderValue } := by
  unfold select
  dsimp only
  repeat' split
  all_goals first
    | rfl
    | (dsimp only; rw [enterValueAdjustMode_shape])

theorem confirmAction_shape (s : ESP32_MenuSystem) (enc : ℤ) :
    s.confirmAction enc =
      { s with currentMenuIndex := (s.confirmAction enc).currentMenuIndex,
               cursorPosition := (s.confirmAction enc).cursorPosition,
               isValueAdjustMode := (s.confirmAction enc).isValueAdjustMode,
               currentValueAdjuster := (s.confirmAction enc).currentValueAdjuster,
               adjusters := (s.confirmAction enc).adjusters,
               lastEncoderValue := (s.confirmAction enc).lastEncoderValue,
               errorCode := (s.confirmAction enc).errorCode,
               errorMessage := (s.confirmAction enc).errorMessage } := by
  unfold confirmAction clearError exitValueAdjustMode writeAdj
  dsimp only
  repeat' split
  all_goals first
    | rfl
    | (rw [select_fst_shape])

end ESP32_MenuSystem

/-! ## Debounce step lemmas -/

theorem debounceStep_quiet (b : Bool) (timer now delay : ℕ) :
    debounceStep b b b timer now delay = ⟨b, timer, false⟩ := by
  unfold debounceStep
  simp

theorem debounceStep_change (raw lastRaw stable : Bool) (timer now delay : ℕ)
    (h : raw ≠ lastRaw) :
    debounceStep raw lastRaw stable timer now delay = ⟨stable, now, false⟩ := by
  unfold debounceStep
  simp [h]

theorem debounceStep_fire (raw stable : Bool) (timer now delay : ℕ)
    (hm : delay < now - timer) (hs : raw ≠ stable) :
    debounceStep raw raw stable timer now delay = ⟨raw, timer, raw⟩ := by
  unfold debounceStep
  simp [hm, hs]

/-! ## Browsing-mode characterizations of the cursor moves -/

namespace ESP32_MenuSystem

theorem moveUp_browsing (s : ESP32_MenuSystem) (m : Menu)
    (hmenu : s.getCurrentMenu = some m) (hmode : s.isValueAdjustMode = false) :
    s.moveUp = { s with cursorPosition :=
        if s.cursorPosition > 0 then s.cursorPosition - 1 else m.itemCount - 1 } := by
  unfold moveUp
  simp only [hmode, Bool.false_eq_true, false_and, if_false, hmenu]
  split
  · rfl
  · rfl

theorem moveDown_browsing (s : ESP32_MenuSystem) (m : Menu)
    (hmenu : s.getCurrentMenu = some m) (hmode : s.isValueAdjustMode = false) :
    s.moveDown = { s with cursorPosition :=
        if s.cursorPosition < m.itemCount - 1 then s.cursorPosition + 1 else 0 } := by
  unfold moveDown
  simp only [hmode, Bool.false_eq_true, false_and, if_false, hmenu]
  split
  · rfl
  · rfl

end ESP32_MenuSystem

/-! ## Claim C2: wrap / clamp policy of Float and Integer setValue -/

theorem truncToInt_intCast (w : ℤ) : truncToInt (w : ℚ) = w := by
  unfold truncToInt
  simp [Rat.num_intCast, Rat.den_intCast]

/-- C2: For every Float or Integer value adjuster with bounds `min ≤ max` and
positive step: under the Wrap policy `setValue(max + step)` yields exactly
`min`, and in general any proposed value strictly above `max` maps to `min`
and any value strictly below `min` maps to `max` (single-step wrap, not
modulo reduction); under the Clamp policy `setValue(max + step)` yields
exactly `max` (saturation at the violated bound). -/
theorem c2_setValue_wrap_clamp
    (minV maxV step v : ℚ) (minI maxI stepI iv : ℤ)
    (hq : minV ≤ maxV) (hstep : 0 < step)
    (hi : minI ≤ maxI) (hstepI : 0 < stepI) :
    ((ValueAdjuster.float v step minV maxV true).setValue (maxV + step)).getValue = minV
    ∧ ((ValueAdjuster.float v step minV maxV false).setValue (maxV + step)).getValue = maxV
    ∧ (∀ w : ℚ, maxV < w →
        ((ValueAdjuster.float v step minV maxV true).setValue w).getValue = minV)
    ∧ (∀ w : ℚ, w < minV →
        ((ValueAdjuster.float v step minV maxV true).setValue w).getValue = maxV)
    ∧ ((ValueAdjuster.int iv stepI minI maxI true).setValue ((maxI + stepI : ℤ) : ℚ)).getValue = (minI : ℚ)
    ∧ ((ValueAdjuster.int iv stepI minI maxI false).setValue ((maxI + stepI : ℤ) : ℚ)).getValue = (maxI : ℚ)
    ∧ (∀ w : ℤ, maxI < w →
        ((ValueAdjuster.int iv stepI minI maxI true).setValue (w : ℚ)).getValue = (minI : ℚ))
    ∧ (∀ w : ℤ, w < minI →
        ((ValueAdjuster.int iv stepI minI maxI true).setValue (w : ℚ)).getValue = (maxI : ℚ)) := by
  refine ⟨?_, ?_, ?_, ?_, ?_, ?_, ?_, ?_⟩
  · have h1 : maxV < maxV + step := by linarith
    simp [ValueAdjuster.setValue, ValueAdjuster.getValue, h1]
  · have h1 : maxV < maxV + step := by linarith
    have h2 : ¬ maxV + step < minV := by linarith
    simp [ValueAdjuster.setValue, ValueAdjuster.getValue, h1, h2]
  · intro w hw
    simp [ValueAdjuster.setValue, ValueAdjuster.getValue, hw]
  · intro w hw
    have h1 : ¬ maxV < w := by linarith
    simp [ValueAdjuster.setValue, ValueAdjuster.getValue, h1, hw]
  · have ht : truncToInt ((maxI : ℚ) + (stepI : ℚ)) = maxI + stepI := by
      rw [← Int.cast_add]
      exact truncToInt_intCast _
    have h1 : maxI < maxI + stepI := by omega
    simp [ValueAdjuster.setValue, ValueAdjuster.getValue, ht, h1]
  · have ht : truncToInt ((maxI : ℚ) + (stepI : ℚ)) = maxI + stepI := by
      rw [← Int.cast_add]
      exact truncToInt_intCast _
    have h1 : maxI < maxI + stepI := by omega
    have h2 : ¬ maxI + stepI < minI := by omega
    simp [ValueAdjuster.setValue, ValueAdjuster.getValue, ht, h1, h2]
  · intro w hw
    simp [ValueAdjuster.setValue, ValueAdjuster.getValue, truncToInt_intCast, hw]
  · intro w hw
    have h1 : ¬ maxI < w := by omega
    simp [ValueAdjuster.setValue, ValueAdjuster.getValue, truncToInt_intCast, h1, hw]

/-- C2 witness: bounds `[0, 10]`, step 2, at the concrete proposed value 12. -/
theorem c2_setValue_wrap_clamp_witness :
    ((ValueAdjuster.float 9 2 0 10 true).setValue (10 + 2)).getValue = 0
    ∧ ((ValueAdjuster.float 9 2 0 10 false).setValue (10 + 2)).getValue = 10
    ∧ ((ValueAdjuster.int 9 2 0 10 true).setValue ((10 + 2 : ℤ) : ℚ)).getValue = ((0 : ℤ) : ℚ)
    ∧ ((ValueAdjuster.int 9 2 0 10 false).setValue ((10 + 2 : ℤ) : ℚ)).getValue = ((10 : ℤ) : ℚ) := by
  have h := c2_setValue_wrap_clamp 0 10 2 9 0 10 2 9
    (by norm_num) (by norm_num) (by norm_num) (by norm_num)
  exact ⟨h.1, h.2.1, h.2.2.2.2.1, h.2.2.2.2.2.1⟩

/-! ## Claim C6: goBack -/

def c6State : ESP32_MenuSystem :=
  { initButtons with
    menus := [{ title := "Main", items := [⟨"A", -1, none, none⟩, ⟨"B", -1, none, none⟩,
                                           ⟨"C", -1, none, none⟩], id := 0 },
              { title := "Sub", items := [⟨"X", -1, none, none⟩], id := 1 }],
    cursorPosition := 2 }

/-- C6 counterexample: with the active menu already at index 0 and the cursor
at 2, `goBack` is a no-op — it does not reset the cursor to 0, contradicting
the claim that it does so unconditionally. -/
theorem c6_counterexample :
    c6State.currentMenuIndex = 0 ∧ c6State.cursorPosition = 2 ∧
    c6State.goBack = c6State ∧ (c6State.goBack).cursorPosition ≠ 0 := by decide

/-- C6 (amended): `goBack` sets the active menu to index 0 and resets the
cursor to 0 exactly when the active menu index is positive; when the active
menu is already index 0 (or negative) it changes nothing, in particular a
nonzero cursor is retained. -/
theorem c6_goBack_home (s : ESP32_MenuSystem) :
    (0 < s.currentMenuIndex →
      s.goBack = { s with currentMenuIndex := 0, cursorPosition := 0 })
    ∧ (s.currentMenuIndex ≤ 0 → s.goBack = s) := by
  unfold ESP32_MenuSystem.goBack
  constructor
  · intro h
    rw [if_pos h]
  · intro h
    rw [if_neg (by omega)]

def c6WitState : ESP32_MenuSystem := { c6State with currentMenuIndex := 1 }

/-- C6 witness: from menu index 1, `goBack` lands on menu 0 with cursor 0. -/
theorem c6_goBack_home_witness :
    c6WitState.goBack = { c6WitState with currentMenuIndex := 0, cursorPosition := 0 } :=
  (c6_goBack_home c6WitState).1 (by decide)

/-! ## Claim C1: cursor wraparound in browsing mode -/

theorem getCurrentMenu_setCursor (s : ESP32_MenuSystem) (c : ℤ) :
    ({ s with cursorPosition := c } : ESP32_MenuSystem).getCurrentMenu
      = s.getCurrentMenu := rfl

theorem applyMoves_bounds (m : Menu) (hN : 0 < m.itemCount) (moves : List Bool) :
    ∀ s : ESP32_MenuSystem, s.getCurrentMenu = some m → s.isValueAdjustMode = false →
      0 ≤ s.cursorPosition → s.cursorPosition < m.itemCount →
      0 ≤ (s.applyMoves moves).cursorPosition ∧
        (s.applyMoves moves).cursorPosition < m.itemCount := by
  induction moves with
  | nil => exact fun s _ _ h1 h2 => ⟨h1, h2⟩
  | cons mv mvs ih =>
    intro s hmenu hmode h1 h2
    cases mv
    · have hstep : ESP32_MenuSystem.applyMoves s (false :: mvs)
          = (s.moveUp).applyMoves mvs := by
        simp [ESP32_MenuSystem.applyMoves]
      rw [hstep, ESP32_MenuSystem.moveUp_browsing s m hmenu hmode]
      refine ih _ ?_ ?_ ?_ ?_
      · exact hmenu
      · exact hmode
      · dsimp only
        split <;> omega
      · dsimp only
        split <;> omega
    · have hstep : ESP32_MenuSystem.applyMoves s (true :: mvs)
          = (s.moveDown).applyMoves mvs := by
        simp [ESP32_MenuSystem.applyMoves]
      rw [hstep, ESP32_MenuSystem.moveDown_browsing s m hmenu hmode]
      refine ih _ ?_ ?_ ?_ ?_
      · exact hmenu
      · exact hmode
      · dsimp only
        split <;> omega
      · dsimp only
        split <;> omega

/-- C1 (amended): in browsing mode with N > 0 items, any sequence of
moveUp/moveDown calls keeps the cursor in `[0, N)`, moveUp at 0 wraps to
N - 1 and moveDown at N - 1 wraps to 0.  With N = 0 items however, only
moveDown is a no-op at cursor 0; moveUp sets the cursor to
`itemCount - 1 = -1` rather than leaving it unchanged. -/
theorem c1_cursor_wrap (s : ESP32_MenuSystem) (m : Menu)
    (hmenu : s.getCurrentMenu = some m) (hmode : s.isValueAdjustMode = false) :
    (0 < m.itemCount →
      ((∀ moves : List Bool, 0 ≤ s.cursorPosition → s.cursorPosition < m.itemCount →
          0 ≤ (s.applyMoves moves).cursorPosition ∧
            (s.applyMoves moves).cursorPosition < m.itemCount)
        ∧ (s.cursorPosition = 0 → (s.moveUp).cursorPosition = m.itemCount - 1)
        ∧ (s.cursorPosition = m.itemCount - 1 → (s.moveDown).cursorPosition = 0)))
    ∧ (m.itemCount = 0 → s.cursorPosition = 0 →
        (s.moveDown).cursorPosition = 0 ∧ (s.moveUp).cursorPosition = -1) := by
  constructor
  · intro hN
    refine ⟨fun moves h1 h2 => applyMoves_bounds m hN moves s hmenu hmode h1 h2, ?_, ?_⟩
    · intro h0
      rw [ESP32_MenuSystem.moveUp_browsing s m hmenu hmode]
      dsimp only
      rw [if_neg (by omega)]
    · intro hlast
      rw [ESP32_MenuSystem.moveDown_browsing s m hmenu hmode]
      dsimp only
      rw [if_neg (by omega)]
  · intro h0 hc
    constructor
    · rw [ESP32_MenuSystem.moveDown_browsing s m hmenu hmode]
      dsimp only
      rw [if_neg (by omega)]
    · rw [ESP32_MenuSystem.moveUp_browsing s m hmenu hmode]
      dsimp only
      rw [if_neg (by omega)]
      omega

def c1EmptyState : ESP32_MenuSystem :=
  { initButtons with menus := [{ title := "Empty", items := [], id := 0 }] }

/-- C1 counterexample: with a 0-item menu and cursor 0 in browsing mode,
`moveUp` is not a no-op — it sets the cursor to -1. -/
theorem c1_counterexample :
    (c1EmptyState.getCurrentMenu.map Menu.itemCount = some 0)
    ∧ c1EmptyState.cursorPosition = 0
    ∧ (c1EmptyState.moveUp).cursorPosition = -1
    ∧ (c1EmptyState.moveUp).cursorPosition ≠ c1EmptyState.cursorPosition := by decide

def c1Menu3 : Menu :=
  { title := "M", items := [⟨"A", -1, none, none⟩, ⟨"B", -1, none, none⟩,
                            ⟨"C", -1, none, none⟩], id := 0 }

def c1WitState : ESP32_MenuSystem := { initButtons with menus := [c1Menu3] }

/-- C1 witness: three moveDown calls on a 3-item menu keep the cursor in
range. -/
theorem c1_cursor_wrap_witness :
    0 ≤ (c1WitState.applyMoves [true, true, true]).cursorPosition ∧
    (c1WitState.applyMoves [true, true, true]).cursorPosition < c1Menu3.itemCount :=
  ((c1_cursor_wrap c1WitState c1Menu3 (by decide) rfl).1 (by decide)).1
    [true, true, true] (by decide) (by decide)

/-! ## Claim C8: boolean pending/commit protocol -/

theorem foldl_setTempValue (c t : Bool) (bs : List Bool) :
    bs.foldl ValueAdjuster.setTempValue (ValueAdjuster.bool c t)
      = ValueAdjuster.bool c (bs.getLastD t) := by
  induction bs generalizing t with
  | nil => rfl
  | cons v vs ih =>
    rw [List.foldl_cons, List.getLastD_cons]
    exact ih v

/-- C8: entering edit mode on a boolean adjuster seeds the pending (temp)
value with the committed value; `setTempValue` changes only the pending
value; `applyTempValue` copies pending into committed; hence after entering
edit mode and any sequence of `setTempValue` calls followed by
`applyTempValue`, the committed value equals the last pending selection. -/
theorem c8_pending_commit (s : ESP32_MenuSystem) (r : ℕ) (b t : Bool) (enc : ℤ)
    (hadj : s.readAdj r = some (ValueAdjuster.bool b t)) (bs : List Bool) :
    ((s.enterValueAdjustMode r enc).readAdj r = some (ValueAdjuster.bool b b))
    ∧ (∀ c p v : Bool, ((ValueAdjuster.bool c p).setTempValue v) = ValueAdjuster.bool c v)
    ∧ (∀ c p : Bool, (ValueAdjuster.bool c p).applyTempValue = ValueAdjuster.bool p p)
    ∧ ((bs.foldl ValueAdjuster.setTempValue (ValueAdjuster.bool b b)).applyTempValue
        = ValueAdjuster.bool (bs.getLastD b) (bs.getLastD b)) := by
  have hr : r < s.adjusters.length := by
    by_contra hge
    rw [ESP32_MenuSystem.readAdj, List.getElem?_eq_none (by omega)] at hadj
    cases hadj
  refine ⟨?_, fun c p v => rfl, fun c p => rfl, ?_⟩
  · unfold ESP32_MenuSystem.enterValueAdjustMode
    dsimp only
    rw [show ({ s with isValueAdjustMode := true,
                       currentValueAdjuster := some r } : ESP32_MenuSystem).readAdj r
          = s.readAdj r from rfl, hadj]
    dsimp only [ValueAdjuster.getType, ValueAdjuster.setTempValue, ValueAdjuster.isTrue]
    rw [if_pos rfl]
    split
    · rw [ESP32_MenuSystem.readAdj, ESP32_MenuSystem.writeAdj]
      exact List.getElem?_set_self hr
    · rw [ESP32_MenuSystem.readAdj, ESP32_MenuSystem.writeAdj]
      exact List.getElem?_set_self hr
  · rw [foldl_setTempValue]
    rfl

def c8State : ESP32_MenuSystem :=
  { initButtons with
    menus := [{ title := "M", items := [⟨"Flag", -1, none, some 0⟩], id := 0 }],
    adjusters := [ValueAdjuster.bool false false] }

/-- C8 witness: committed `false`, pending selections true, false, true. -/
theorem c8_pending_commit_witness :
    ((c8State.enterValueAdjustMode 0 0).readAdj 0 = some (ValueAdjuster.bool false false))
    ∧ (([true, false, true].foldl ValueAdjuster.setTempValue
          (ValueAdjuster.bool false false)).applyTempValue
        = ValueAdjuster.bool ([true, false, true].getLastD false)
            ([true, false, true].getLastD false)) := by
  have h := c8_pending_commit c8State 0 false false 0 (by decide) [true, false, true]
  exact ⟨h.1, h.2.2.2⟩

/-! ## Claim C9: dangling next-menu reference -/

theorem findMenuAux_not_found (id : ℤ) :
    ∀ (l : List Menu) (i : ℤ), (∀ mm ∈ l, mm.id ≠ id) →
      ESP32_MenuSystem.findMenuAux l id i = -1 := by
  intro l
  induction l with
  | nil => intro i _; rfl
  | cons m ms ih =>
    intro i h
    unfold ESP32_MenuSystem.findMenuAux
    rw [if_neg (h m (List.mem_cons_self m ms))]
    exact ih (i + 1) (fun mm hm => h mm (List.mem_cons_of_mem m hm))

/-- C9: selecting an item whose `nextMenuId ≥ 0` does not match any existing
menu id (and which has no value adjuster) leaves the state entirely
unchanged — the dangling reference is not fatal, the system stays on the
current menu with the same cursor. -/
theorem c9_dangling_select (s : ESP32_MenuSystem) (m : Menu) (item : MenuItem) (enc : ℤ)
    (hmenu : s.getCurrentMenu = some m)
    (hcur : 0 ≤ s.cursorPosition)
    (hitem : m.items[s.cursorPosition.toNat]? = some item)
    (hadj : item.valueAdjuster = none)
    (hnext : 0 ≤ item.nextMenuId)
    (hdangling : ∀ mm ∈ s.menus, mm.id ≠ item.nextMenuId) :
    (s.select enc).1 = s := by
  have hlen : s.cursorPosition.toNat < m.items.length := by
    by_contra hge
    rw [List.getElem?_eq_none (by omega)] at hitem
    cases hitem
  have hlt : s.cursorPosition < m.itemCount := by
    unfold Menu.itemCount
    omega
  have hfind : s.findMenuById item.nextMenuId = -1 :=
    findMenuAux_not_found item.nextMenuId s.menus 0 hdangling
  unfold ESP32_MenuSystem.select
  rw [hmenu]
  dsimp only
  rw [if_pos hlt, if_pos hcur, hitem]
  dsimp only
  rw [hadj]
  dsimp only
  rw [if_pos hnext, hfind, if_neg (by omega)]

def c9State : ESP32_MenuSystem :=
  { initButtons with
    menus := [{ title := "M", items := [⟨"Go", 7, some 4, none⟩], id := 0 }] }

/-- C9 witness: one menu with id 0, item pointing at nonexistent menu id 7. -/
theorem c9_dangling_select_witness : (c9State.select 0).1 = c9State :=
  c9_dangling_select c9State
    { title := "M", items := [⟨"Go", 7, some 4, none⟩], id := 0 }
    ⟨"Go", 7, some 4, none⟩ 0 (by decide) (by decide) (by decide) rfl
    (by decide) (by decide)

/-! ## Claim C10: value adjuster takes precedence on select -/

theorem enterValueAdjustMode_fields (s : ESP32_MenuSystem) (r : ℕ) (enc : ℤ) :
    (s.enterValueAdjustMode r enc).isValueAdjustMode = true
    ∧ (s.enterValueAdjustMode r enc).currentValueAdjuster = some r := by
  unfold ESP32_MenuSystem.enterValueAdjustMode ESP32_MenuSystem.writeAdj
    ESP32_MenuSystem.readAdj
  dsimp only
  constructor
  · repeat' split
    all_goals rfl
  · repeat' split
    all_goals rfl

/-- C10: selecting an item with a bound value adjuster enters edit mode with
that adjuster and does nothing else — the item's callback is not executed
and no navigation happens even when the item also carries a callback id and
a `nextMenuId ≥ 0`; menu index, cursor and the menu list are unchanged. -/
theorem c10_adjuster_precedence (s : ESP32_MenuSystem) (m : Menu) (item : MenuItem)
    (r : ℕ) (enc : ℤ)
    (hmenu : s.getCurrentMenu = some m)
    (hcur : 0 ≤ s.cursorPosition)
    (hitem : m.items[s.cursorPosition.toNat]? = some item)
    (hadj : item.valueAdjuster = some r) :
    (s.select enc).2 = none
    ∧ (s.select enc).1.isValueAdjustMode = true
    ∧ (s.select enc).1.currentValueAdjuster = some r
    ∧ (s.select enc).1.currentMenuIndex = s.currentMenuIndex
    ∧ (s.select enc).1.cursorPosition = s.cursorPosition
    ∧ (s.select enc).1.menus = s.menus := by
  have hlen : s.cursorPosition.toNat < m.items.length := by
    by_contra hge
    rw [List.getElem?_eq_none (by omega)] at hitem
    cases hitem
  have hlt : s.cursorPosition < m.itemCount := by
    unfold Menu.itemCount
    omega
  have hsel : s.select enc = (s.enterValueAdjustMode r enc, none) := by
    unfold ESP32_MenuSystem.select
    rw [hmenu]
    dsimp only
    rw [if_pos hlt, if_pos hcur, hitem]
    dsimp only
    rw [hadj]
  rw [hsel]
  dsimp only
  refine ⟨rfl, (enterValueAdjustMode_fields s r enc).1,
    (enterValueAdjustMode_fields s r enc).2, ?_, ?_, ?_⟩
  · rw [ESP32_MenuSystem.enterValueAdjustMode_shape]
  · rw [ESP32_MenuSystem.enterValueAdjustMode_shape]
  · rw [ESP32_MenuSystem.enterValueAdjustMode_shape]

def c10State : ESP32_MenuSystem :=
  { initButtons with
    menus := [{ title := "M", items := [⟨"Val", 3, some 9, some 0⟩], id := 0 },
              { title := "T", items := [⟨"X", -1, none, none⟩], id := 3 }],
    adjusters := [ValueAdjuster.int 5 1 0 9 true] }

/-- C10 witness: the selected item carries both a callback id (9) and a
resolvable `nextMenuId` (3), yet selecting it only enters edit mode. -/
theorem c10_adjuster_precedence_witness :
    (c10State.select 0).2 = none
    ∧ (c10State.select 0).1.isValueAdjustMode = true
    ∧ (c10State.select 0).1.currentMenuIndex = c10State.currentMenuIndex
    ∧ (c10State.select 0).1.cursorPosition = c10State.cursorPosition := by
  have h := c10_adjuster_precedence c10State
    { title := "M", items := [⟨"Val", 3, some 9, some 0⟩], id := 0 }
    ⟨"Val", 3, some 9, some 0⟩ 0 0 (by decide) (by decide) (by decide) rfl
  exact ⟨h.1, h.2.1, h.2.2.2.1, h.2.2.2.2.1⟩

/-! ## Claim C3: boolean editing via Up/Down (code bug in button mode) -/

def c3State : ESP32_MenuSystem :=
  { initButtons with
    menus := [{ title := "M", items := [⟨"Flag", -1, none, some 0⟩], id := 0 }],
    adjusters := [ValueAdjuster.bool false false],
    isValueAdjustMode := true, currentValueAdjuster := some 0,
    lastButtonUpState := true }

/-- C3: in button mode, a debounced Up press while editing a boolean adjuster
does NOT set the pending value to true — `checkButtons` routes edit-mode Up
through `setValue(value + increment)`, and `BoolValueAdjuster::setValue`
toggles the committed value, leaving pending untouched
(committed goes false → true, pending stays false).  A subsequent debounced
Confirm then applies the stale pending value, reverting the committed value
to false — so in button mode the edit is never committable, contradicting
the library's own pending/commit design used by `moveUp`/`moveDown`, by the
encoder path, and by the boolean edit screen (which renders the pending
selection). -/
theorem c3_button_edit_toggles_committed :
    c3State.readAdj 0 = some (ValueAdjuster.bool false false)
    ∧ (c3State.checkButtons true false false 100 0).2.upFired = true
    ∧ (c3State.checkButtons true false false 100 0).1.readAdj 0
        = some (ValueAdjuster.bool true false)
    ∧ ((((c3State.checkButtons true false false 100 0).1.checkButtons
          false false true 200 0).1.checkButtons false false true 300 0).1.readAdj 0
        = some (ValueAdjuster.bool false false)) := by decide

/-! ## Claim C4: encoder accumulator (counterexample part) -/

def c4State : ESP32_MenuSystem :=
  { initEncoder 2 with
    menus := [{ title := "M", items := [⟨"A", -1, none, none⟩, ⟨"B", -1, none, none⟩,
                                        ⟨"C", -1, none, none⟩], id := 0 }] }

/-- C4 counterexample: with sensitivity 2 and accumulator 0, a single reading
that jumps the raw position by +2 (raw deltas sum to `1·2 + 0`) emits 0 step
events and leaves the accumulator at 1, not the claimed 1 event with
accumulator 0 — the handler adds only `sign(delta) = ±1` per changed reading,
not the delta itself. -/
theorem c4_counterexample :
    c4State.encoderSensitivity = 2
    ∧ c4State.encoderAccumulator = 0
    ∧ c4State.lastEncoderValue = 0
    ∧ (c4State.runEncoder [2]).2.length = 0
    ∧ (c4State.runEncoder [2]).1.encoderAccumulator = 1
    ∧ ¬ ((c4State.runEncoder [2]).2.length = 1
          ∧ (c4State.runEncoder [2]).1.encoderAccumulator = 0) := by decide

/-! ## Claim C5: debounce (counterexample part) -/

def c5State : ESP32_MenuSystem :=
  { initButtons with
    menus := [{ title := "M", items := [⟨"A", -1, none, none⟩, ⟨"B", -1, none, none⟩,
                                        ⟨"C", -1, none, none⟩], id := 0 }] }

/-- C5 counterexample: DOWN goes active at t=0 and is held stable; at t=60
(past the 50 ms window) its event is due, but a simultaneous raw toggle on
UP resets the single shared `lastDebounceTime`, so no DOWN event fires —
the last conjunct shows the identical trace without the UP toggle does fire
the DOWN event.  This refutes the claimed per-button independent debounce
state. -/
theorem c5_counterexample :
    ((c5State.checkButtons false true false 0 0).2.downFired = false)
    ∧ (((c5State.checkButtons false true false 0 0).1.checkButtons
          true true false 60 0).2.downFired = false)
    ∧ (((c5State.checkButtons false true false 0 0).1.checkButtons
          true true false 60 0).1.buttonDownState = false)
    ∧ (((c5State.checkButtons false true false 0 0).1.checkButtons
          false true false 60 0).2.downFired = true) := by decide

/-! ## Claim C7: error latch (counterexample part) -/

def c7State : ESP32_MenuSystem :=
  { initButtons with
    menus := [{ title := "M", items := [⟨"A", -1, none, none⟩, ⟨"B", -1, none, none⟩,
                                        ⟨"C", -1, none, none⟩], id := 0 }],
    errorCode := 5, errorMessage := "boom",
    lastButtonUpState := true }

/-- C7 counterexample: with error code 5 latched, a debounced Up press still
navigates — the cursor wraps from 0 to 2 and the error stays latched,
contradicting the claim that Up/Down cause no navigation effect while an
error is latched. -/
theorem c7_counterexample :
    c7State.errorCode = 5
    ∧ (c7State.checkButtons true false false 100 0).2.upFired = true
    ∧ (c7State.checkButtons true false false 100 0).1.cursorPosition = 2
    ∧ (c7State.checkButtons true false false 100 0).1.cursorPosition ≠ c7State.cursorPosition
    ∧ (c7State.checkButtons true false false 100 0).1.errorCode = 5 := by decide

/-! ## Claim C4: encoder accumulator (amended part)

The handler adds `sign(delta) = ±1` to the accumulator per changed reading;
the amended statement counts position *changes*, not the sum of raw deltas. -/

theorem encoderStepAction_inputMode (s : ESP32_MenuSystem) (d : ℤ) :
    (s.encoderStepAction d).inputMode = s.inputMode := by
  rw [ESP32_MenuSystem.encoderStepAction_shape]

theorem encoderStepAction_sens (s : ESP32_MenuSystem) (d : ℤ) :
    (s.encoderStepAction d).encoderSensitivity = s.encoderSensitivity := by
  rw [ESP32_MenuSystem.encoderStepAction_shape]

theorem encoderStepAction_acc (s : ESP32_MenuSystem) (d : ℤ) :
    (s.encoderStepAction d).encoderAccumulator = s.encoderAccumulator := by
  rw [ESP32_MenuSystem.encoderStepAction_shape]

theorem handleEncoderMovement_step_up (s : ESP32_MenuSystem) (r : ℤ)
    (hmode : s.inputMode = InputMode.encoder) (hlt : s.lastEncoderValue < r) :
    s.handleEncoderMovement r =
      (if s.encoderSensitivity ≤ |s.encoderAccumulator + 1| then
        (let s1 := ({ s with encoderAccumulator := s.encoderAccumulator + 1 }
            : ESP32_MenuSystem).encoderStepAction
            (if s.encoderAccumulator + 1 > 0 then 1 else -1)
         ({ s1 with encoderAccumulator := s1.encoderAccumulator.tmod s1.encoderSensitivity,
                    lastEncoderValue := r },
          some (if s.encoderAccumulator + 1 > 0 then 1 else -1)))
      else ({ s with encoderAccumulator := s.encoderAccumulator + 1,
                     lastEncoderValue := r }, none)) := by
  unfold ESP32_MenuSystem.handleEncoderMovement
  rw [if_neg (by rw [hmode]; simp), if_pos (ne_of_gt hlt), if_pos hlt]

theorem handleEncoderMovement_step_down (s : ESP32_MenuSystem) (r : ℤ)
    (hmode : s.inputMode = InputMode.encoder) (hgt : r < s.lastEncoderValue) :
    s.handleEncoderMovement r =
      (if s.encoderSensitivity ≤ |s.encoderAccumulator + -1| then
        (let s1 := ({ s with encoderAccumulator := s.encoderAccumulator + -1 }
            : ESP32_MenuSystem).encoderStepAction
            (if s.encoderAccumulator + -1 > 0 then 1 else -1)
         ({ s1 with encoderAccumulator := s1.encoderAccumulator.tmod s1.encoderSensitivity,
                    lastEncoderValue := r },
          some (if s.encoderAccumulator + -1 > 0 then 1 else -1)))
      else ({ s with encoderAccumulator := s.encoderAccumulator + -1,
                     lastEncoderValue := r }, none)) := by
  unfold ESP32_MenuSystem.handleEncoderMovement
  rw [if_neg (by rw [hmode]; simp), if_pos (ne_of_lt hgt),
    if_neg (show ¬ r > s.lastEncoderValue by omega)]

theorem runEncoder_cons (s : ESP32_MenuSystem) (r : ℤ) (rs : List ℤ) :
    s.runEncoder (r :: rs) =
      (((s.handleEncoderMovement r).1.runEncoder rs).1,
        (s.handleEncoderMovement r).2.toList
          ++ ((s.handleEncoderMovement r).1.runEncoder rs).2) := rfl

theorem runEncoder_ticks_pos (sens : ℕ) (hsens : 1 ≤ sens) :
    ∀ (rs : List ℤ) (s : ESP32_MenuSystem) (a : ℕ),
      s.inputMode = InputMode.encoder →
      s.encoderSensitivity = (sens : ℤ) →
      s.encoderAccumulator = (a : ℤ) →
      a < sens →
      List.Chain' (· < ·) (s.lastEncoderValue :: rs) →
      (s.runEncoder rs).2 = List.replicate ((a + rs.length) / sens) 1 ∧
      (s.runEncoder rs).1.encoderAccumulator = (((a + rs.length) % sens : ℕ) : ℤ) := by
  intro rs
  induction rs with
  | nil =>
    intro s a hmode hsensEq hacc ha _
    constructor
    · rw [ESP32_MenuSystem.runEncoder]
      simp [Nat.div_eq_of_lt ha]
    · rw [ESP32_MenuSystem.runEncoder]
      simp [Nat.mod_eq_of_lt ha, hacc]
  | cons r rs' ih =>
    intro s a hmode hsensEq hacc ha hchain
    rw [List.chain'_cons] at hchain
    obtain ⟨hlt, hchain'⟩ := hchain
    have habs : |(a : ℤ) + 1| = (a : ℤ) + 1 := abs_of_nonneg (by positivity)
    have hdir : ((if (a : ℤ) + 1 > 0 then (1 : ℤ) else -1)) = 1 := if_pos (by positivity)
    by_cases hth : a + 1 = sens
    · have hstep : s.handleEncoderMovement r =
          (let s1 := ({ s with encoderAccumulator := (a : ℤ) + 1 }
              : ESP32_MenuSystem).encoderStepAction 1
           ({ s1 with encoderAccumulator := s1.encoderAccumulator.tmod s1.encoderSensitivity,
                      lastEncoderValue := r }, some 1)) := by
        rw [handleEncoderMovement_step_up s r hmode hlt, hacc, hsensEq, habs,
          if_pos (show (sens : ℤ) ≤ (a : ℤ) + 1 by omega), hdir]
      have hfst := congrArg Prod.fst hstep
      have hsnd := congrArg Prod.snd hstep
      dsimp only at hfst hsnd
      have hXacc : (({ s with encoderAccumulator := (a : ℤ) + 1 }
          : ESP32_MenuSystem).encoderStepAction 1).encoderAccumulator = (sens : ℤ) := by
        rw [encoderStepAction_acc]
        show (a : ℤ) + 1 = (sens : ℤ)
        omega
      have hXsens : (({ s with encoderAccumulator := (a : ℤ) + 1 }
          : ESP32_MenuSystem).encoderStepAction 1).encoderSensitivity = (sens : ℤ) := by
        rw [encoderStepAction_sens]
        exact hsensEq
      obtain ⟨h1, h2⟩ := ih (s.handleEncoderMovement r).1 0
        (by rw [hfst]
            exact (encoderStepAction_inputMode _ _).trans hmode)
        (by rw [hfst]
            exact hXsens)
        (by rw [hfst]
            show (({ s with encoderAccumulator := (a : ℤ) + 1 }
              : ESP32_MenuSystem).encoderStepAction 1).encoderAccumulator.tmod _ = _
            rw [hXacc, hXsens, Int.tmod_self]
            rfl)
        (by omega)
        (by rw [hfst]
            exact hchain')
      rw [runEncoder_cons, hsnd]
      constructor
      · dsimp only [Option.toList]
        rw [h1]
        rw [show a + (r :: rs').length = rs'.length + sens by
          simp only [List.length_cons]; omega]
        rw [Nat.add_div_right _ (by omega), List.replicate_succ]
        simp
      · dsimp only
        rw [h2]
        rw [show a + (r :: rs').length = rs'.length + sens by
          simp only [List.length_cons]; omega]
        rw [Nat.add_mod_right]
        simp
    · have hstep : s.handleEncoderMovement r =
          ({ s with encoderAccumulator := (a : ℤ) + 1, lastEncoderValue := r }, none) := by
        rw [handleEncoderMovement_step_up s r hmode hlt, hacc, hsensEq, habs,
          if_neg (show ¬ (sens : ℤ) ≤ (a : ℤ) + 1 by omega)]
      have hfst := congrArg Prod.fst hstep
      have hsnd := congrArg Prod.snd hstep
      dsimp only at hfst hsnd
      obtain ⟨h1, h2⟩ := ih (s.handleEncoderMovement r).1 (a + 1)
        (by rw [hfst]
            exact hmode)
        (by rw [hfst]
            exact hsensEq)
        (by rw [hfst]
            show (a : ℤ) + 1 = ((a + 1 : ℕ) : ℤ)
            omega)
        (by omega)
        (by rw [hfst]
            exact hchain')
      rw [runEncoder_cons, hsnd]
      constructor
      · dsimp only [Option.toList]
        rw [h1]
        rw [show a + (r :: rs').length = a + 1 + rs'.length by
          simp only [List.length_cons]; omega]
        simp
      · dsimp only
        rw [h2]
        rw [show a + (r :: rs').length = a + 1 + rs'.length by
          simp only [List.length_cons]; omega]

theorem runEncoder_ticks_neg (sens : ℕ) (hsens : 1 ≤ sens) :
    ∀ (rs : List ℤ) (s : ESP32_MenuSystem) (a : ℕ),
      s.inputMode = InputMode.encoder →
      s.encoderSensitivity = (sens : ℤ) →
      s.encoderAccumulator = -(a : ℤ) →
      a < sens →
      List.Chain' (· > ·) (s.lastEncoderValue :: rs) →
      (s.runEncoder rs).2 = List.replicate ((a + rs.length) / sens) (-1) ∧
      (s.runEncoder rs).1.encoderAccumulator = -(((a + rs.length) % sens : ℕ) : ℤ) := by
  intro rs
  induction rs with
  | nil =>
    intro s a hmode hsensEq hacc ha _
    constructor
    · rw [ESP32_MenuSystem.runEncoder]
      simp [Nat.div_eq_of_lt ha]
    · rw [ESP32_MenuSystem.runEncoder]
      simp [Nat.mod_eq_of_lt ha, hacc]
  | cons r rs' ih =>
    intro s a hmode hsensEq hacc ha hchain
    rw [List.chain'_cons] at hchain
    obtain ⟨hgt, hchain'⟩ := hchain
    have habs : |(-(a : ℤ)) + -1| = (a : ℤ) + 1 := by
      rw [show (-(a : ℤ)) + -1 = -((a : ℤ) + 1) by ring, abs_neg]
      exact abs_of_nonneg (by positivity)
    have hdir : ((if (-(a : ℤ)) + -1 > 0 then (1 : ℤ) else -1)) = -1 :=
      if_neg (by omega)
    by_cases hth : a + 1 = sens
    · have hstep : s.handleEncoderMovement r =
          (let s1 := ({ s with encoderAccumulator := (-(a : ℤ)) + -1 }
              : ESP32_MenuSystem).encoderStepAction (-1)
           ({ s1 with encoderAccumulator := s1.encoderAccumulator.tmod s1.encoderSensitivity,
                      lastEncoderValue := r }, some (-1))) := by
        rw [handleEncoderMovement_step_down s r hmode hgt, hacc, hsensEq, habs,
          if_pos (show (sens : ℤ) ≤ (a : ℤ) + 1 by omega), hdir]
      have hfst := congrArg Prod.fst hstep
      have hsnd := congrArg Prod.snd hstep
      dsimp only at hfst hsnd
      have hXacc : (({ s with encoderAccumulator := (-(a : ℤ)) + -1 }
          : ESP32_MenuSystem).encoderStepAction (-1)).encoderAccumulator
            = -(sens : ℤ) := by
        rw [encoderStepAction_acc]
        show (-(a : ℤ)) + -1 = -(sens : ℤ)
        omega
      have hXsens : (({ s with encoderAccumulator := (-(a : ℤ)) + -1 }
          : ESP32_MenuSystem).encoderStepAction (-1)).encoderSensitivity = (sens : ℤ) := by
        rw [encoderStepAction_sens]
        exact hsensEq
      obtain ⟨h1, h2⟩ := ih (s.handleEncoderMovement r).1 0
        (by rw [hfst]
            exact (encoderStepAction_inputMode _ _).trans hmode)
        (by rw [hfst]
            exact hXsens)
        (by rw [hfst]
            show (({ s with encoderAccumulator := (-(a : ℤ)) + -1 }
              : ESP32_MenuSystem).encoderStepAction (-1)).encoderAccumulator.tmod _ = _
            rw [hXacc, hXsens, Int.neg_tmod_self]
            simp)
        (by omega)
        (by rw [hfst]
            exact hchain')
      rw [runEncoder_cons, hsnd]
      constructor
      · dsimp only [Option.toList]
        rw [h1]
        rw [show a + (r :: rs').length = rs'.length + sens by
          simp only [List.length_cons]; omega]
        rw [Nat.add_div_right _ (by omega), List.replicate_succ]
        simp
      · dsimp only
        rw [h2]
        rw [show a + (r :: rs').length = rs'.length + sens by
          simp only [List.length_cons]; omega]
        rw [Nat.add_mod_right]
        simp
    · have hstep : s.handleEncoderMovement r =
          ({ s with encoderAccumulator := (-(a : ℤ)) + -1, lastEncoderValue := r }, none) := by
        rw [handleEncoderMovement_step_down s r hmode hgt, hacc, hsensEq, habs,
          if_neg (show ¬ (sens : ℤ) ≤ (a : ℤ) + 1 by omega)]
      have hfst := congrArg Prod.fst hstep
      have hsnd := congrArg Prod.snd hstep
      dsimp only at hfst hsnd
      obtain ⟨h1, h2⟩ := ih (s.handleEncoderMovement r).1 (a + 1)
        (by rw [hfst]
            exact hmode)
        (by rw [hfst]
            exact hsensEq)
        (by rw [hfst]
            show (-(a : ℤ)) + -1 = -((a + 1 : ℕ) : ℤ)
            omega)
        (by omega)
        (by rw [hfst]
            exact hchain')
      rw [runEncoder_cons, hsnd]
      constructor
      · dsimp only [Option.toList]
        rw [h1]
        rw [show a + (r :: rs').length = a + 1 + rs'.length by
          simp only [List.length_cons]; omega]
        simp
      · dsimp only
        rw [h2]
        rw [show a + (r :: rs').length = a + 1 + rs'.length by
          simp only [List.length_cons]; omega]

/-- C4 (amended): with sensitivity `s ≥ 1` and an empty accumulator, a
sequence of encoder readings that all move in the same direction, containing
`k·s + r` position *changes* (each reading differing from the previous; the
handler quantizes each observed change to ±1 regardless of its magnitude),
emits exactly `k` step events in that direction and leaves the accumulator
equal to the signed remainder `r` (`-r` for the negative direction), reduced
by the C truncated `%`, not reset to zero. -/
theorem c4_encoder_accumulator (s : ESP32_MenuSystem) (rs : List ℤ) (k r : ℕ)
    (hmode : s.inputMode = InputMode.encoder)
    (hsens : 1 ≤ s.encoderSensitivity)
    (hacc : s.encoderAccumulator = 0)
    (hn : rs.length = k * s.encoderSensitivity.toNat + r)
    (hr : r < s.encoderSensitivity.toNat) :
    (List.Chain' (· < ·) (s.lastEncoderValue :: rs) →
      (s.runEncoder rs).2 = List.replicate k 1 ∧
      (s.runEncoder rs).1.encoderAccumulator = (r : ℤ))
    ∧ (List.Chain' (· > ·) (s.lastEncoderValue :: rs) →
      (s.runEncoder rs).2 = List.replicate k (-1) ∧
      (s.runEncoder rs).1.encoderAccumulator = -(r : ℤ)) := by
  have hsn : s.encoderSensitivity = (s.encoderSensitivity.toNat : ℤ) := by omega
  have hdiv : (0 + rs.length) / s.encoderSensitivity.toNat = k := by
    rw [Nat.zero_add, hn, Nat.mul_comm, Nat.mul_add_div (by omega), Nat.div_eq_of_lt hr,
      Nat.add_zero]
  have hmod : (0 + rs.length) % s.encoderSensitivity.toNat = r := by
    rw [Nat.zero_add, hn, Nat.mul_comm, Nat.mul_add_mod, Nat.mod_eq_of_lt hr]
  constructor
  · intro hchain
    obtain ⟨h1, h2⟩ := runEncoder_ticks_pos s.encoderSensitivity.toNat (by omega) rs s 0
      hmode hsn (by rw [hacc]; rfl) (by omega) hchain
    rw [hdiv] at h1
    rw [hmod] at h2
    exact ⟨h1, h2⟩
  · intro hchain
    obtain ⟨h1, h2⟩ := runEncoder_ticks_neg s.encoderSensitivity.toNat (by omega) rs s 0
      hmode hsn (by rw [hacc]; rfl) (by omega) hchain
    rw [hdiv] at h1
    rw [hmod] at h2
    exact ⟨h1, h2⟩

/-- C4 witness: sensitivity 2, three unit ticks upward: one down-step event,
remainder 1. -/
theorem c4_encoder_accumulator_witness :
    (c4State.runEncoder [1, 2, 3]).2 = List.replicate 1 1 ∧
    (c4State.runEncoder [1, 2, 3]).1.encoderAccumulator = ((1 : ℕ) : ℤ) :=
  (c4_encoder_accumulator c4State [1, 2, 3] 1 1 rfl (by decide) rfl (by decide)
    (by decide)).1
    (List.chain'_cons.mpr ⟨by decide, List.chain'_cons.mpr ⟨by decide,
      List.chain'_cons.mpr ⟨by decide, List.chain'_singleton 3⟩⟩⟩)

/-! ## Claim C5: debounce through the single shared timestamp (amended part) -/

theorem debounceStep_quiet_of (raw lastRaw stable : Bool) (timer now delay : ℕ)
    (h1 : lastRaw = raw) (h2 : stable = raw) :
    debounceStep raw lastRaw stable timer now delay = ⟨stable, timer, false⟩ := by
  subst h1
  subst h2
  exact debounceStep_quiet _ _ _ _

theorem debounceStep_fire_of (raw lastRaw stable : Bool) (timer now delay : ℕ)
    (h1 : lastRaw = raw) (hs : stable ≠ raw) (hm : delay < now - timer) :
    debounceStep raw lastRaw stable timer now delay = ⟨raw, timer, raw⟩ := by
  subst h1
  exact debounceStep_fire _ _ _ _ _ hm (Ne.symm hs)

namespace ESP32_MenuSystem

theorem upStage_quiet (s : ESP32_MenuSystem) (u : Bool) (now : ℕ)
    (h1 : s.lastButtonUpState = u) (h2 : s.buttonUpState = u) :
    s.upStage u now = (s, false) := by
  unfold upStage
  dsimp only
  rw [debounceStep_quiet_of u s.lastButtonUpState s.buttonUpState _ _ _ h1 h2]
  rfl

theorem downStage_quiet (s : ESP32_MenuSystem) (d : Bool) (now : ℕ)
    (h1 : s.lastButtonDownState = d) (h2 : s.buttonDownState = d) :
    s.downStage d now = (s, false) := by
  unfold downStage
  dsimp only
  rw [debounceStep_quiet_of d s.lastButtonDownState s.buttonDownState _ _ _ h1 h2]
  rfl

theorem okStage_quiet (s : ESP32_MenuSystem) (o : Bool) (now : ℕ) (enc : ℤ)
    (h1 : s.lastButtonOkState = o) (h2 : s.buttonOkState = o) :
    s.okStage o now enc = (s, false) := by
  unfold okStage
  dsimp only
  rw [debounceStep_quiet_of o s.lastButtonOkState s.buttonOkState _ _ _ h1 h2]
  rfl

theorem downStage_change (s : ESP32_MenuSystem) (d : Bool) (now : ℕ)
    (h : d ≠ s.lastButtonDownState) :
    s.downStage d now = ({ s with lastDebounceTime := now }, false) := by
  unfold downStage
  dsimp only
  rw [debounceStep_change _ _ _ _ _ _ h]
  rfl

theorem downStage_fire_true (s : ESP32_MenuSystem) (now : ℕ)
    (hraw : s.lastButtonDownState = true) (hstable : s.buttonDownState = false)
    (hm : s.debounceDelay < now - s.lastDebounceTime) :
    s.downStage true now =
      ((if s.isValueAdjustMode ∧ s.currentValueAdjuster.isSome then
          ({ s with buttonDownState := true } : ESP32_MenuSystem).decreaseValue
        else ({ s with buttonDownState := true } : ESP32_MenuSystem).moveDown), true) := by
  unfold downStage
  dsimp only
  rw [debounceStep_fire_of true s.lastButtonDownState s.buttonDownState _ _ _ hraw
    (by rw [hstable]; simp) hm]
  rfl

theorem upStage_fire_true (s : ESP32_MenuSystem) (now : ℕ)
    (hraw : s.lastButtonUpState = true) (hstable : s.buttonUpState = false)
    (hm : s.debounceDelay < now - s.lastDebounceTime) :
    s.upStage true now =
      ((if s.isValueAdjustMode ∧ s.currentValueAdjuster.isSome then
          ({ s with buttonUpState := true } : ESP32_MenuSystem).increaseValue
        else ({ s with buttonUpState := true } : ESP32_MenuSystem).moveUp), true) := by
  unfold upStage
  dsimp only
  rw [debounceStep_fire_of true s.lastButtonUpState s.buttonUpState _ _ _ hraw
    (by rw [hstable]; simp) hm]
  rfl

theorem checkButtons_stages (s : ESP32_MenuSystem) (up down ok : Bool) (now : ℕ)
    (enc : ℤ) (hmode : s.inputMode = InputMode.buttons) :
    s.checkButtons up down ok now enc =
      ({ (((s.upStage up now).1.downStage down now).1.okStage ok now enc).1 with
          lastButtonUpState := up, lastButtonDownState := down,
          lastButtonOkState := ok },
       ⟨(s.upStage up now).2, ((s.upStage up now).1.downStage down now).2,
        (((s.upStage up now).1.downStage down now).1.okStage ok now enc).2⟩) := by
  unfold checkButtons
  rw [if_neg (by rw [hmode]; simp)]

end ESP32_MenuSystem

theorem downAction_fields (A : ESP32_MenuSystem) (c : Prop) [inst : Decidable c] :
    ((if c then A.decreaseValue else A.moveDown) : ESP32_MenuSystem).inputMode = A.inputMode
    ∧ ((if c then A.decreaseValue else A.moveDown) : ESP32_MenuSystem).buttonUpState = A.buttonUpState
    ∧ ((if c then A.decreaseValue else A.moveDown) : ESP32_MenuSystem).buttonDownState = A.buttonDownState
    ∧ ((if c then A.decreaseValue else A.moveDown) : ESP32_MenuSystem).buttonOkState = A.buttonOkState
    ∧ ((if c then A.decreaseValue else A.moveDown) : ESP32_MenuSystem).lastButtonUpState = A.lastButtonUpState
    ∧ ((if c then A.decreaseValue else A.moveDown) : ESP32_MenuSystem).lastButtonDownState = A.lastButtonDownState
    ∧ ((if c then A.decreaseValue else A.moveDown) : ESP32_MenuSystem).lastButtonOkState = A.lastButtonOkState
    ∧ ((if c then A.decreaseValue else A.moveDown) : ESP32_MenuSystem).lastDebounceTime = A.lastDebounceTime
    ∧ ((if c then A.decreaseValue else A.moveDown) : ESP32_MenuSystem).debounceDelay = A.debounceDelay
    ∧ ((if c then A.decreaseValue else A.moveDown) : ESP32_MenuSystem).errorCode = A.errorCode := by
  split
  · rw [ESP32_MenuSystem.decreaseValue_shape]
    exact ⟨rfl, rfl, rfl, rfl, rfl, rfl, rfl, rfl, rfl, rfl⟩
  · rw [ESP32_MenuSystem.moveDown_shape]
    exact ⟨rfl, rfl, rfl, rfl, rfl, rfl, rfl, rfl, rfl, rfl⟩

/-- State after one checkButtons cycle in which the DOWN raw level first goes
active at time `t` (no event yet: the shared timestamp was reset). -/
def pressDown (s : ESP32_MenuSystem) (t : ℕ) : ESP32_MenuSystem :=
  { s with
      lastDebounceTime := t,
      lastButtonUpState := s.buttonUpState,
      lastButtonDownState := true,
      lastButtonOkState := s.buttonOkState }

/-- State after a further cycle in which the DOWN raw level bounced back to
inactive at time `t` (the shared timestamp was reset again). -/
def releaseDown (s : ESP32_MenuSystem) (t : ℕ) : ESP32_MenuSystem :=
  { s with
      lastDebounceTime := t,
      lastButtonUpState := s.buttonUpState,
      lastButtonDownState := false,
      lastButtonOkState := s.buttonOkState }

/-- C5 (amended): the three buttons share the single `lastDebounceTime`.
With the other two buttons quiet, the DOWN button debounce behaves per the
claim: (a) a raw change at `t0` held stable past the window emits exactly one
event (none at `t0`, one at `t1`, no duplicate at `t2`); (b) two raw toggles
within the window (`u0`, then back at `u1`) emit zero events and leave the
stable level unchanged.  The independence part of the claim is false (see the
counterexample): raw activity on any button resets the shared timestamp and
delays the other buttons' pending transitions. -/
theorem c5_debounce_shared (s : ESP32_MenuSystem) (t0 t1 t2 u0 u1 u2 : ℕ) (enc : ℤ)
    (hmode : s.inputMode = InputMode.buttons)
    (huq : s.lastButtonUpState = s.buttonUpState)
    (hoq : s.lastButtonOkState = s.buttonOkState)
    (hdlast : s.lastButtonDownState = false)
    (hdstable : s.buttonDownState = false)
    (hm1 : s.debounceDelay < t1 - t0)
    (hm2 : s.debounceDelay < t2 - t0)
    (hwin : u1 - u0 ≤ s.debounceDelay) :
    ((s.checkButtons s.buttonUpState true s.buttonOkState t0 enc).2.downFired = false
      ∧ ((s.checkButtons s.buttonUpState true s.buttonOkState t0 enc).1.checkButtons
            s.buttonUpState true s.buttonOkState t1 enc).2.downFired = true
      ∧ (((s.checkButtons s.buttonUpState true s.buttonOkState t0 enc).1.checkButtons
            s.buttonUpState true s.buttonOkState t1 enc).1.checkButtons
            s.buttonUpState true s.buttonOkState t2 enc).2.downFired = false)
    ∧ ((s.checkButtons s.buttonUpState true s.buttonOkState u0 enc).2.downFired = false
      ∧ ((s.checkButtons s.buttonUpState true s.buttonOkState u0 enc).1.checkButtons
            s.buttonUpState false s.buttonOkState u1 enc).2.downFired = false
      ∧ (((s.checkButtons s.buttonUpState true s.buttonOkState u0 enc).1.checkButtons
            s.buttonUpState false s.buttonOkState u1 enc).1.checkButtons
            s.buttonUpState false s.buttonOkState u2 enc).2.downFired = false
      ∧ (((s.checkButtons s.buttonUpState true s.buttonOkState u0 enc).1.checkButtons
            s.buttonUpState false s.buttonOkState u1 enc).1.checkButtons
            s.buttonUpState false s.buttonOkState u2 enc).1.buttonDownState = false) := by
  have firstCall : ∀ t : ℕ, s.checkButtons s.buttonUpState true s.buttonOkState t enc
      = (pressDown s t, ⟨false, false, false⟩) := by
    intro t
    rw [ESP32_MenuSystem.checkButtons_stages s s.buttonUpState true s.buttonOkState t enc
        hmode,
      ESP32_MenuSystem.upStage_quiet s s.buttonUpState t huq rfl]
    dsimp only
    rw [ESP32_MenuSystem.downStage_change s true t (by rw [hdlast]; simp)]
    dsimp only
    rw [ESP32_MenuSystem.okStage_quiet ({ s with lastDebounceTime := t }
        : ESP32_MenuSystem) s.buttonOkState t enc hoq rfl]
    rfl
  constructor
  · -- (a) a change held past the window fires exactly one event
    rw [firstCall t0]
    dsimp only
    refine ⟨rfl, ?_, ?_⟩
    · rw [ESP32_MenuSystem.checkButtons_stages (pressDown s t0) s.buttonUpState true
          s.buttonOkState t1 enc hmode,
        ESP32_MenuSystem.upStage_quiet (pressDown s t0) s.buttonUpState t1 rfl rfl]
      dsimp only
      rw [ESP32_MenuSystem.downStage_fire_true (pressDown s t0) t1 rfl hdstable hm1]
    · rw [ESP32_MenuSystem.checkButtons_stages (pressDown s t0) s.buttonUpState true
          s.buttonOkState t1 enc hmode,
        ESP32_MenuSystem.upStage_quiet (pressDown s t0) s.buttonUpState t1 rfl rfl]
      dsimp only
      rw [ESP32_MenuSystem.downStage_fire_true (pressDown s t0) t1 rfl hdstable hm1]
      dsimp only
      set X2 : ESP32_MenuSystem :=
        (if (pressDown s t0).isValueAdjustMode ∧ (pressDown s t0).currentValueAdjuster.isSome
         then ({ pressDown s t0 with buttonDownState := true }
             : ESP32_MenuSystem).decreaseValue
         else ({ pressDown s t0 with buttonDownState := true }
             : ESP32_MenuSystem).moveDown) with hX2
      have fds := downAction_fields ({ pressDown s t0 with buttonDownState := true }
          : ESP32_MenuSystem)
        ((pressDown s t0).isValueAdjustMode ∧ (pressDown s t0).currentValueAdjuster.isSome)
      rw [← hX2] at fds
      obtain ⟨f1, f2, f3, f4, f5, f6, f7, f8, f9, f10⟩ := fds
      rw [ESP32_MenuSystem.okStage_quiet X2 s.buttonOkState t1 enc f7 f4]
      dsimp only
      rw [ESP32_MenuSystem.checkButtons_stages ({ X2 with
            lastButtonUpState := s.buttonUpState,
            lastButtonDownState := true,
            lastButtonOkState := s.buttonOkState } : ESP32_MenuSystem)
          s.buttonUpState true s.buttonOkState t2 enc (f1.trans hmode)]
      rw [ESP32_MenuSystem.upStage_quiet ({ X2 with
            lastButtonUpState := s.buttonUpState,
            lastButtonDownState := true,
            lastButtonOkState := s.buttonOkState } : ESP32_MenuSystem)
          s.buttonUpState t2 rfl f2]
      dsimp only
      rw [ESP32_MenuSystem.downStage_quiet ({ X2 with
            lastButtonUpState := s.buttonUpState,
            lastButtonDownState := true,
            lastButtonOkState := s.buttonOkState } : ESP32_MenuSystem)
          true t2 rfl f3]
  · -- (b) two raw toggles within the window emit zero events
    rw [firstCall u0]
    dsimp only
    have secondCall : (pressDown s u0).checkButtons s.buttonUpState false s.buttonOkState
          u1 enc = (releaseDown s u1, ⟨false, false, false⟩) := by
      rw [ESP32_MenuSystem.checkButtons_stages (pressDown s u0) s.buttonUpState false
          s.buttonOkState u1 enc hmode,
        ESP32_MenuSystem.upStage_quiet (pressDown s u0) s.buttonUpState u1 rfl rfl]
      dsimp only
      rw [ESP32_MenuSystem.downStage_change (pressDown s u0) false u1 (by simp [pressDown])]
      dsimp only
      rw [ESP32_MenuSystem.okStage_quiet ({ pressDown s u0 with lastDebounceTime := u1 }
          : ESP32_MenuSystem) s.buttonOkState u1 enc rfl rfl]
      rfl
    refine ⟨rfl, ?_, ?_, ?_⟩
    · rw [secondCall]
    · rw [secondCall]
      dsimp only
      rw [ESP32_MenuSystem.checkButtons_stages (releaseDown s u1) s.buttonUpState false
          s.buttonOkState u2 enc hmode,
        ESP32_MenuSystem.upStage_quiet (releaseDown s u1) s.buttonUpState u2 rfl rfl]
      dsimp only
      rw [ESP32_MenuSystem.downStage_quiet (releaseDown s u1) false u2 rfl hdstable]
    · rw [secondCall]
      dsimp only
      rw [ESP32_MenuSystem.checkButtons_stages (releaseDown s u1) s.buttonUpState false
          s.buttonOkState u2 enc hmode,
        ESP32_MenuSystem.upStage_quiet (releaseDown s u1) s.buttonUpState u2 rfl rfl]
      dsimp only
      rw [ESP32_MenuSystem.downStage_quiet (releaseDown s u1) false u2 rfl hdstable]
      dsimp only
      rw [ESP32_MenuSystem.okStage_quiet (releaseDown s u1) s.buttonOkState u2 enc rfl rfl]
      exact hdstable

/-- C5 witness: delay 50; held press at 0 fires at 60; a 200/230 bounce
(within the window) emits nothing. -/
theorem c5_debounce_shared_witness :
    ((c5State.checkButtons c5State.buttonUpState true c5State.buttonOkState 0 0).1.checkButtons
        c5State.buttonUpState true c5State.buttonOkState 60 0).2.downFired = true
    ∧ ((c5State.checkButtons c5State.buttonUpState true c5State.buttonOkState 200 0).1.checkButtons
        c5State.buttonUpState false c5State.buttonOkState 230 0).2.downFired = false := by
  have h := c5_debounce_shared c5State 0 60 120 200 230 300 0 rfl rfl rfl rfl rfl
    (by decide) (by decide) (by decide)
  exact ⟨h.1.2.1, h.2.2.1⟩

/-! ## Claim C7: error latch (amended part) -/

theorem moveUp_frame (s : ESP32_MenuSystem) :
    (s.moveUp).inputMode = s.inputMode
    ∧ (s.moveUp).isValueAdjustMode = s.isValueAdjustMode
    ∧ (s.moveUp).currentValueAdjuster = s.currentValueAdjuster
    ∧ (s.moveUp).buttonUpState = s.buttonUpState
    ∧ (s.moveUp).buttonDownState = s.buttonDownState
    ∧ (s.moveUp).buttonOkState = s.buttonOkState
    ∧ (s.moveUp).lastButtonUpState = s.lastButtonUpState
    ∧ (s.moveUp).lastButtonDownState = s.lastButtonDownState
    ∧ (s.moveUp).lastButtonOkState = s.lastButtonOkState
    ∧ (s.moveUp).lastDebounceTime = s.lastDebounceTime
    ∧ (s.moveUp).debounceDelay = s.debounceDelay
    ∧ (s.moveUp).errorCode = s.errorCode := by
  rw [ESP32_MenuSystem.moveUp_shape s]
  exact ⟨rfl, rfl, rfl, rfl, rfl, rfl, rfl, rfl, rfl, rfl, rfl, rfl⟩

/-- C7 (amended): while an error is latched (`errorCode > 0`), error
rendering replaces normal rendering, and a Confirm press clears the error and
performs no other state change — but Up/Down inputs are NOT preempted: a
debounced Up press in browsing mode still navigates exactly as `moveUp` would
(the cursor moves) and the error stays latched. -/
theorem c7_error_latch (s : ESP32_MenuSystem) (hlatch : 0 < s.errorCode) :
    s.displayKind = DisplayKind.errorScreen
    ∧ (∀ enc : ℤ, s.confirmAction enc = { s with errorCode := 0, errorMessage := "" })
    ∧ (∀ m : Menu, s.getCurrentMenu = some m →
        s.inputMode = InputMode.buttons → s.isValueAdjustMode = false →
        s.lastButtonUpState = true → s.buttonUpState = false →
        s.lastButtonDownState = s.buttonDownState →
        s.lastButtonOkState = s.buttonOkState →
        ∀ (now : ℕ) (enc : ℤ), s.debounceDelay < now - s.lastDebounceTime →
          (s.checkButtons true s.buttonDownState s.buttonOkState now enc).2.upFired = true
          ∧ (s.checkButtons true s.buttonDownState s.buttonOkState now enc).1.cursorPosition
              = (s.moveUp).cursorPosition
          ∧ (s.checkButtons true s.buttonDownState s.buttonOkState now enc).1.errorCode
              = s.errorCode) := by
  refine ⟨?_, ?_, ?_⟩
  · unfold ESP32_MenuSystem.displayKind
    rw [if_pos hlatch]
  · intro enc
    unfold ESP32_MenuSystem.confirmAction
    rw [if_pos hlatch]
    rfl
  · intro m hmenu hmode hvam hlraw hstable hdq hoq now enc hm
    rw [ESP32_MenuSystem.checkButtons_stages s true s.buttonDownState s.buttonOkState
        now enc hmode,
      ESP32_MenuSystem.upStage_fire_true s now hlraw hstable hm]
    rw [if_neg (show ¬ (s.isValueAdjustMode = true ∧ s.currentValueAdjuster.isSome = true)
      by simp [hvam])]
    dsimp only
    obtain ⟨g1, g2, g3, g4, g5, g6, g7, g8, g9, g10, g11, g12⟩ :=
      moveUp_frame ({ s with buttonUpState := true } : ESP32_MenuSystem)
    rw [ESP32_MenuSystem.downStage_quiet
        (({ s with buttonUpState := true } : ESP32_MenuSystem).moveUp)
        s.buttonDownState now (g8.trans hdq) g5]
    dsimp only
    rw [ESP32_MenuSystem.okStage_quiet
        (({ s with buttonUpState := true } : ESP32_MenuSystem).moveUp)
        s.buttonOkState now enc (g9.trans hoq) g6]
    have hcur : ((({ s with buttonUpState := true } : ESP32_MenuSystem).moveUp)).cursorPosition
        = (s.moveUp).cursorPosition := by
      rw [ESP32_MenuSystem.moveUp_browsing ({ s with buttonUpState := true }
          : ESP32_MenuSystem) m hmenu hvam,
        ESP32_MenuSystem.moveUp_browsing s m hmenu hvam]
    exact ⟨rfl, hcur, g12⟩

/-- C7 witness: error code 5 latched; Confirm clears only the error; a
debounced Up press at t=100 still moves the cursor. -/
theorem c7_error_latch_witness :
    c7State.displayKind = DisplayKind.errorScreen
    ∧ c7State.confirmAction 0 = { c7State with errorCode := 0, errorMessage := "" }
    ∧ (c7State.checkButtons true c7State.buttonDownState c7State.buttonOkState 100 0).2.upFired
        = true
    ∧ (c7State.checkButtons true c7State.buttonDownState c7State.buttonOkState
        100 0).1.cursorPosition = (c7State.moveUp).cursorPosition
    ∧ (c7State.checkButtons true c7State.buttonDownState c7State.buttonOkState
        100 0).1.errorCode = c7State.errorCode := by
  have h := c7_error_latch c7State (by decide)
  have h3 := h.2.2 { title := "M", items := [⟨"A", -1, none, none⟩, ⟨"B", -1, none, none⟩,
      ⟨"C", -1, none, none⟩], id := 0 } (by decide) rfl rfl rfl rfl rfl rfl 100 0 (by decide)
  exact ⟨h.1, h.2.1 0, h3.1, h3.2.1, h3.2.2⟩
